import Mathlib

/-!
Shallow embedding of the DevRev MCP server core
(`src/devrev_mcp/server.py`): the tool catalog (`handle_list_tools`),
the dispatcher (`handle_call_tool`), and the response formatting.
-/

/-- A JSON-like Python value, as stored in a tool-call arguments map or an
outbound request payload. -/
inductive Value where
  | str (s : String)
  | num (n : Int)
  | arr (l : List Value)
  | obj (fields : List (String × Value))
  | none

/-- Python truthiness of a `Value`: empty string, empty list, zero, empty
dict and `None` are falsy; everything else is truthy. -/
def Value.truthy : Value → Bool
  | .str s => !(s == "")
  | .num n => !(n == 0)
  | .arr l => !l.isEmpty
  | .obj l => !l.isEmpty
  | .none => false

/-- An arguments map / payload: a Python dict modelled as an association
list keyed by strings (insertion order preserved, keys unique in practice). -/
def Args := List (String × Value)

/-- `d.get(key)`: the value at `key`, or Python `None` when absent. -/
def getArg (args : Args) (key : String) : Value :=
  match List.lookup key args with
  | some v => v
  | Option.none => Value.none

/-- `d.get(key, default)`: the value at `key`, or `default` when absent. -/
def getArgD (args : Args) (key : String) (default : Value) : Value :=
  match List.lookup key args with
  | some v => v
  | Option.none => default

/-- Truthiness of the whole `arguments` parameter (`dict | None`):
`None` and the empty dict are falsy (`if not arguments`). -/
def argsTruthy : Option Args → Bool
  | Option.none => false
  | some l => !l.isEmpty

/-- Python `repr` of a `Value` (used when a value is embedded inside a
formatted container; string escaping is not modelled). -/
def pyRepr : Value → String
  | .str s => "\x27" ++ s ++ "\x27"
  | .num n => toString n
  | .none => "None"
  | .arr l => "[" ++ String.intercalate ", " (l.attach.map (fun x => pyRepr x.1)) ++ "]"
  | .obj l => "\x7b" ++ String.intercalate ", " (l.attach.map (fun x => "\x27" ++ x.1.1 ++ "\x27: " ++ pyRepr x.1.2)) ++ "\x7d"
termination_by v => sizeOf v
decreasing_by
  · have := List.sizeOf_lt_of_mem x.2
    simp_wf
    omega
  · obtain ⟨⟨k, v⟩, hm⟩ := x
    have h1 := List.sizeOf_lt_of_mem hm
    simp [Prod.mk.sizeOf_spec] at h1
    simp_wf
    omega

/-- Python `str` of a `Value`, as produced by an f-string interpolation. -/
def pyStr : Value → String
  | .str s => s
  | v => pyRepr v

/-- One entry of the tool catalog: name, description, and the JSON-Schema
input contract (property keys with their declared JSON type, and the list
of required property names). -/
structure Tool where
  name : String
  description : String
  properties : List (String × String)
  required : List String

/-- The tool catalog returned by `handle_list_tools` in
`src/devrev_mcp/server.py` (names, descriptions, schemas transcribed;
enum membership is declarative only and not enforced by the dispatcher). -/
def handle_list_tools : List Tool :=
  [ { name := "search",
      description := "Search DevRev using the provided query",
      properties := [("query", "string"), ("namespace", "string")],
      required := ["query", "namespace"] },
    { name := "get_current_user",
      description := "Get the current user\x27s information",
      properties := [],
      required := [] },
    { name := "get_object",
      description := "Get all information about a DevRev issue and ticket using its ID",
      properties := [("id", "string")],
      required := ["id"] },
    { name := "create_object",
      description := "Create a new isssue or ticket in DevRev",
      properties := [("type", "string"), ("title", "string"), ("body", "string"),
                     ("applies_to_part", "string"), ("owned_by", "array")],
      required := ["type", "title", "applies_to_part"] },
    { name := "update_object",
      description := "Update an existing issue or ticket in DevRev",
      properties := [("type", "string"), ("id", "string"), ("title", "string"),
                     ("body", "string")],
      required := ["id", "type"] },
    { name := "list_works",
      description := "List all works in DevRev",
      properties := [("type", "array"), ("applies_to_part", "array"),
                     ("created_by", "array"), ("owned_by", "array"),
                     ("stage", "array"), ("state", "array"), ("limit", "integer")],
      required := [] },
    { name := "get_part",
      description := "Get an existing part in DevRev",
      properties := [("id", "string")],
      required := ["id"] },
    { name := "create_part",
      description := "Create a new part in DevRev",
      properties := [("type", "string"), ("name", "string"), ("owned_by", "array"),
                     ("parent_part", "array"), ("description", "string")],
      required := ["type", "name", "owned_by", "parent_part"] },
    { name := "update_part",
      description := "Update an existing part in DevRev",
      properties := [("type", "string"), ("id", "string"), ("name", "string"),
                     ("description", "string"), ("owned_by", "array"),
                     ("target_close_date", "string"), ("target_start_date", "string")],
      required := ["id", "type"] } ]

/-- A text content item (`types.TextContent(type="text", text=...)`). -/
structure TextContent where
  type : String
  text : String

/-- The response object returned by `make_devrev_request`: HTTP status
code, raw body text, and `jsonStr`, which models the string rendering of
`response.json()` as interpolated into an f-string. -/
structure RemoteResponse where
  status_code : Nat
  text : String
  jsonStr : String

/-- The Remote Client collaborator: `make_devrev_request(endpoint, payload)`. -/
def Client := String → Args → RemoteResponse

/-- Outcome of `handle_call_tool`: either a raised `ValueError` message or
the returned content list, together with the trace of outbound remote
calls (endpoint, payload) made during the invocation. -/
structure DispatchResult where
  result : Except String (List TextContent)
  calls : List (String × Args)

/-- The dispatcher `handle_call_tool(name, arguments)` of
`src/devrev_mcp/server.py`, with the Remote Client passed explicitly and
the outbound calls recorded in the `calls` trace. `raise ValueError(msg)`
becomes `Except.error msg`; a returned content list becomes `Except.ok`. -/
def handle_call_tool (client : Client) (name : String) (arguments : Option Args) : DispatchResult :=
  if name = "search" then
    if !argsTruthy arguments then ⟨.error "Missing arguments", []⟩ else
    let args := arguments.getD []
    let query := getArg args "query"
    if !query.truthy then ⟨.error "Missing query parameter", []⟩ else
    let nspace := getArg args "namespace"
    if !nspace.truthy then ⟨.error "Missing namespace parameter", []⟩ else
    let payload : Args := [("query", query), ("namespace", nspace)]
    let response := client "search.hybrid" payload
    if response.status_code ≠ 200 then
      ⟨.ok [⟨"text", "Search failed with status " ++ toString response.status_code ++ ": " ++ response.text⟩],
       [("search.hybrid", payload)]⟩
    else
      ⟨.ok [⟨"text", "Search results for \x27" ++ pyStr query ++ "\x27:\n" ++ response.jsonStr⟩],
       [("search.hybrid", payload)]⟩
  else if name = "get_current_user" then
    let payload : Args := []
    let response := client "dev-users.self" payload
    if response.status_code ≠ 200 then
      ⟨.ok [⟨"text", "Get current user failed with status " ++ toString response.status_code ++ ": " ++ response.text⟩],
       [("dev-users.self", payload)]⟩
    else
      ⟨.ok [⟨"text", "Current user information: " ++ response.jsonStr⟩],
       [("dev-users.self", payload)]⟩
  else if name = "get_object" then
    if !argsTruthy arguments then ⟨.error "Missing arguments", []⟩ else
    let args := arguments.getD []
    let id := getArg args "id"
    if !id.truthy then ⟨.error "Missing id parameter", []⟩ else
    let payload : Args := [("id", id)]
    let response := client "works.get" payload
    if response.status_code ≠ 200 then
      ⟨.ok [⟨"text", "Get object failed with status " ++ toString response.status_code ++ ": " ++ response.text⟩],
       [("works.get", payload)]⟩
    else
      ⟨.ok [⟨"text", "Object information for \x27" ++ pyStr id ++ "\x27:\n" ++ response.jsonStr⟩],
       [("works.get", payload)]⟩
  else if name = "create_object" then
    if !argsTruthy arguments then ⟨.error "Missing arguments", []⟩ else
    let args := arguments.getD []
    let object_type := getArg args "type"
    if !object_type.truthy then ⟨.error "Missing type parameter", []⟩ else
    let title := getArg args "title"
    if !title.truthy then ⟨.error "Missing title parameter", []⟩ else
    let applies_to_part := getArg args "applies_to_part"
    if !applies_to_part.truthy then ⟨.error "Missing applies_to_part parameter", []⟩ else
    let body := getArgD args "body" (Value.str "")
    let owned_by := getArgD args "owned_by" (Value.arr [])
    let payload : Args := [("type", object_type), ("title", title), ("body", body),
                           ("applies_to_part", applies_to_part), ("owned_by", owned_by)]
    let response := client "works.create" payload
    if response.status_code ≠ 201 then
      ⟨.ok [⟨"text", "Create object failed with status " ++ toString response.status_code ++ ": " ++ response.text⟩],
       [("works.create", payload)]⟩
    else
      ⟨.ok [⟨"text", "Object created successfully: " ++ response.jsonStr⟩],
       [("works.create", payload)]⟩
  else if name = "update_object" then
    if !argsTruthy arguments then ⟨.error "Missing arguments", []⟩ else
    let args := arguments.getD []
    let id := getArg args "id"
    if !id.truthy then ⟨.error "Missing id parameter", []⟩ else
    let object_type := getArg args "type"
    if !object_type.truthy then ⟨.error "Missing type parameter", []⟩ else
    let title := getArg args "title"
    let body := getArg args "body"
    let update_payload : Args :=
      [("id", id), ("type", object_type)]
        ++ (if title.truthy then [("title", title)] else [])
        ++ (if body.truthy then [("body", body)] else [])
    let response := client "works.update" update_payload
    if response.status_code ≠ 200 then
      ⟨.ok [⟨"text", "Update object failed with status " ++ toString response.status_code ++ ": " ++ response.text⟩],
       [("works.update", update_payload)]⟩
    else
      ⟨.ok [⟨"text", "Object updated successfully: " ++ pyStr id⟩],
       [("works.update", update_payload)]⟩
  else if name = "list_works" then
    if !argsTruthy arguments then ⟨.error "Missing arguments", []⟩ else
    let args := arguments.getD []
    let work_type := getArg args "type"
    let applies_to_part := getArg args "applies_to_part"
    let created_by := getArg args "created_by"
    let owned_by := getArg args "owned_by"
    let stage := getArg args "stage"
    let state := getArg args "state"
    let limit := getArg args "limit"
    let payload : Args :=
      (if work_type.truthy then [("type", work_type)] else [])
        ++ (if applies_to_part.truthy then [("applies_to_part", applies_to_part)] else [])
        ++ (if created_by.truthy then [("created_by", created_by)] else [])
        ++ (if owned_by.truthy then [("owned_by", owned_by)] else [])
        ++ (if stage.truthy then [("stage", Value.obj [("name", stage)])] else [])
        ++ (if state.truthy then [("state", state)] else [])
        ++ (if limit.truthy then [("limit", limit)] else [])
    let response := client "works.list" payload
    if response.status_code ≠ 200 then
      ⟨.ok [⟨"text", "List works failed with status " ++ toString response.status_code ++ ": " ++ response.text⟩],
       [("works.list", payload)]⟩
    else
      ⟨.ok [⟨"text", "Works listed successfully: " ++ response.jsonStr⟩],
       [("works.list", payload)]⟩
  else if name = "get_part" then
    if !argsTruthy arguments then ⟨.error "Missing arguments", []⟩ else
    let args := arguments.getD []
    let id := getArg args "id"
    if !id.truthy then ⟨.error "Missing id parameter", []⟩ else
    let payload : Args := [("id", id)]
    let response := client "parts.get" payload
    if response.status_code ≠ 200 then
      ⟨.ok [⟨"text", "Get part failed with status " ++ toString response.status_code ++ ": " ++ response.text⟩],
       [("parts.get", payload)]⟩
    else
      ⟨.ok [⟨"text", "Part information for \x27" ++ pyStr id ++ "\x27:\n" ++ response.jsonStr⟩],
       [("parts.get", payload)]⟩
  else if name = "create_part" then
    if !argsTruthy arguments then ⟨.error "Missing arguments", []⟩ else
    let args := arguments.getD []
    let part_type := getArg args "type"
    if !part_type.truthy then ⟨.error "Missing type parameter", []⟩ else
    let part_name := getArg args "name"
    if !part_name.truthy then ⟨.error "Missing name parameter", []⟩ else
    let owned_by := getArg args "owned_by"
    if !owned_by.truthy then ⟨.error "Missing owned_by parameter", []⟩ else
    let parent_part := getArg args "parent_part"
    if !parent_part.truthy then ⟨.error "Missing parent_part parameter", []⟩ else
    let description := getArg args "description"
    let payload : Args :=
      [("type", part_type), ("name", part_name), ("owned_by", owned_by), ("parent_part", parent_part)]
        ++ (if description.truthy then [("description", description)] else [])
    let response := client "parts.create" payload
    if response.status_code ≠ 201 then
      ⟨.ok [⟨"text", "Create part failed with status " ++ toString response.status_code ++ ": " ++ response.text⟩],
       [("parts.create", payload)]⟩
    else
      ⟨.ok [⟨"text", "Part created successfully: " ++ response.jsonStr⟩],
       [("parts.create", payload)]⟩
  else if name = "update_part" then
    if !argsTruthy arguments then ⟨.error "Missing arguments", []⟩ else
    let args := arguments.getD []
    let id := getArg args "id"
    if !id.truthy then ⟨.error "Missing id parameter", []⟩ else
    let part_type := getArg args "type"
    if !part_type.truthy then ⟨.error "Missing type parameter", []⟩ else
    let part_name := getArg args "name"
    let description := getArg args "description"
    let owned_by := getArg args "owned_by"
    let target_close_date := getArg args "target_close_date"
    let target_start_date := getArg args "target_start_date"
    let payload : Args :=
      [("id", id), ("type", part_type)]
        ++ (if part_name.truthy then [("name", part_name)] else [])
        ++ (if description.truthy then [("description", description)] else [])
        ++ (if owned_by.truthy then [("owned_by", owned_by)] else [])
        ++ (if target_close_date.truthy then [("target_close_date", target_close_date)] else [])
        ++ (if target_start_date.truthy then [("target_start_date", target_start_date)] else [])
    let response := client "parts.update" payload
    if response.status_code ≠ 200 then
      ⟨.ok [⟨"text", "Update part failed with status " ++ toString response.status_code ++ ": " ++ response.text⟩],
       [("parts.update", payload)]⟩
    else
      ⟨.ok [⟨"text", "Part updated successfully: " ++ response.jsonStr⟩],
       [("parts.update", payload)]⟩
  else
    ⟨.error ("Unknown tool: " ++ name), []⟩

/-- The operation names of the catalog, in declaration order. -/
def catalogNames : List String := handle_list_tools.map (fun t => t.name)

/-- The required field names of an operation, read off the catalog entry
(empty for a name not in the catalog). -/
def requiredFields (name : String) : List String :=
  match handle_list_tools.find? (fun t => t.name == name) with
  | some t => t.required
  | Option.none => []

/-- Local validation succeeds: either the operation is `get_current_user`
(which never inspects its arguments), or the arguments map is truthy and
every required field of the operation is present and truthy. -/
def passesValidation (name : String) (arguments : Option Args) : Prop :=
  name = "get_current_user" ∨
    (argsTruthy arguments = true ∧
      ∀ f ∈ requiredFields name, (getArg (arguments.getD []) f).truthy = true)

/-- The success status code each handler branch tests the response
against: 201 for the two creation operations, 200 otherwise. -/
def successStatus (name : String) : Nat :=
  if name = "create_object" ∨ name = "create_part" then 201 else 200

/-- The human-readable operation label used in failure messages. -/
def opLabel : String → String
  | "search" => "Search"
  | "get_current_user" => "Get current user"
  | "get_object" => "Get object"
  | "create_object" => "Create object"
  | "update_object" => "Update object"
  | "list_works" => "List works"
  | "get_part" => "Get part"
  | "create_part" => "Create part"
  | "update_part" => "Update part"
  | _ => ""

/-- The failure content text: `"<label> failed with status <code>: <raw text>"`. -/
def failureText (name : String) (resp : RemoteResponse) : String :=
  opLabel name ++ " failed with status " ++ toString resp.status_code ++ ": " ++ resp.text

/-- The success content text of each operation, as formatted by its
handler branch (`args` is the arguments map, `resp` the remote response). -/
def successText (name : String) (args : Args) (resp : RemoteResponse) : String :=
  if name = "search" then
    "Search results for \x27" ++ pyStr (getArg args "query") ++ "\x27:\n" ++ resp.jsonStr
  else if name = "get_current_user" then
    "Current user information: " ++ resp.jsonStr
  else if name = "get_object" then
    "Object information for \x27" ++ pyStr (getArg args "id") ++ "\x27:\n" ++ resp.jsonStr
  else if name = "create_object" then
    "Object created successfully: " ++ resp.jsonStr
  else if name = "update_object" then
    "Object updated successfully: " ++ pyStr (getArg args "id")
  else if name = "list_works" then
    "Works listed successfully: " ++ resp.jsonStr
  else if name = "get_part" then
    "Part information for \x27" ++ pyStr (getArg args "id") ++ "\x27:\n" ++ resp.jsonStr
  else if name = "create_part" then
    "Part created successfully: " ++ resp.jsonStr
  else if name = "update_part" then
    "Part updated successfully: " ++ resp.jsonStr
  else ""

/-- The fixed remote endpoint of each operation. -/
def endpointOf : String → String
  | "search" => "search.hybrid"
  | "get_current_user" => "dev-users.self"
  | "get_object" => "works.get"
  | "create_object" => "works.create"
  | "update_object" => "works.update"
  | "list_works" => "works.list"
  | "get_part" => "parts.get"
  | "create_part" => "parts.create"
  | "update_part" => "parts.update"
  | _ => ""

/-- A Remote Client stub that returns the same response to every call. -/
def constClient (resp : RemoteResponse) : Client := fun _ _ => resp

example :
    (handle_call_tool (constClient ⟨200, "", "J"⟩) "search"
      (some [("query", Value.str "q"), ("namespace", Value.str "issue")])).result
      = Except.ok [⟨"text", "Search results for \x27q\x27:\nJ"⟩] := rfl

example :
    (handle_call_tool (constClient ⟨404, "oops", "J"⟩) "get_part"
      (some [("id", Value.str "P-1")])).result
      = Except.ok [⟨"text", "Get part failed with status 404: oops"⟩] := rfl

example :
    (handle_call_tool (constClient ⟨200, "", "J"⟩) "list_works"
      (some [("stage", Value.arr [Value.str "triage"])])).calls
      = [("works.list", [("stage", Value.obj [("name", Value.arr [Value.str "triage"])])])] := rfl

example :
    handle_call_tool (constClient ⟨200, "", "J"⟩) "update_object" (some []) =
      ⟨Except.error "Missing arguments", []⟩ := rfl

/-! Branch equations: `handle_call_tool` at each literal operation name
reduces definitionally to the body of the corresponding handler branch. -/

theorem handle_search (client : Client) (arguments : Option Args) :
    handle_call_tool client "search" arguments =
      (if !argsTruthy arguments then ⟨.error "Missing arguments", []⟩ else
       let args := arguments.getD []
       let query := getArg args "query"
       if !query.truthy then ⟨.error "Missing query parameter", []⟩ else
       let nspace := getArg args "namespace"
       if !nspace.truthy then ⟨.error "Missing namespace parameter", []⟩ else
       let payload : Args := [("query", query), ("namespace", nspace)]
       let response := client "search.hybrid" payload
       if response.status_code ≠ 200 then
         ⟨.ok [⟨"text", "Search failed with status " ++ toString response.status_code ++ ": " ++ response.text⟩],
          [("search.hybrid", payload)]⟩
       else
         ⟨.ok [⟨"text", "Search results for \x27" ++ pyStr query ++ "\x27:\n" ++ response.jsonStr⟩],
          [("search.hybrid", payload)]⟩) := rfl

theorem handle_get_current_user (client : Client) (arguments : Option Args) :
    handle_call_tool client "get_current_user" arguments =
      (let payload : Args := []
       let response := client "dev-users.self" payload
       if response.status_code ≠ 200 then
         ⟨.ok [⟨"text", "Get current user failed with status " ++ toString response.status_code ++ ": " ++ response.text⟩],
          [("dev-users.self", payload)]⟩
       else
         ⟨.ok [⟨"text", "Current user information: " ++ response.jsonStr⟩],
          [("dev-users.self", payload)]⟩) := rfl

theorem handle_get_object (client : Client) (arguments : Option Args) :
    handle_call_tool client "get_object" arguments =
      (if !argsTruthy arguments then ⟨.error "Missing arguments", []⟩ else
       let args := arguments.getD []
       let id := getArg args "id"
       if !id.truthy then ⟨.error "Missing id parameter", []⟩ else
       let payload : Args := [("id", id)]
       let response := client "works.get" payload
       if response.status_code ≠ 200 then
         ⟨.ok [⟨"text", "Get object failed with status " ++ toString response.status_code ++ ": " ++ response.text⟩],
          [("works.get", payload)]⟩
       else
         ⟨.ok [⟨"text", "Object information for \x27" ++ pyStr id ++ "\x27:\n" ++ response.jsonStr⟩],
          [("works.get", payload)]⟩) := rfl

theorem handle_create_object (client : Client) (arguments : Option Args) :
    handle_call_tool client "create_object" arguments =
      (if !argsTruthy arguments then ⟨.error "Missing arguments", []⟩ else
       let args := arguments.getD []
       let object_type := getArg args "type"
       if !object_type.truthy then ⟨.error "Missing type parameter", []⟩ else
       let title := getArg args "title"
       if !title.truthy then ⟨.error "Missing title parameter", []⟩ else
       let applies_to_part := getArg args "applies_to_part"
       if !applies_to_part.truthy then ⟨.error "Missing applies_to_part parameter", []⟩ else
       let body := getArgD args "body" (Value.str "")
       let owned_by := getArgD args "owned_by" (Value.arr [])
       let payload : Args := [("type", object_type), ("title", title), ("body", body),
                              ("applies_to_part", applies_to_part), ("owned_by", owned_by)]
       let response := client "works.create" payload
       if response.status_code ≠ 201 then
         ⟨.ok [⟨"text", "Create object failed with status " ++ toString response.status_code ++ ": " ++ response.text⟩],
          [("works.create", payload)]⟩
       else
         ⟨.ok [⟨"text", "Object created successfully: " ++ response.jsonStr⟩],
          [("works.create", payload)]⟩) := rfl

theorem handle_update_object (client : Client) (arguments : Option Args) :
    handle_call_tool client "update_object" arguments =
      (if !argsTruthy arguments then ⟨.error "Missing arguments", []⟩ else
       let args := arguments.getD []
       let id := getArg args "id"
       if !id.truthy then ⟨.error "Missing id parameter", []⟩ else
       let object_type := getArg args "type"
       if !object_type.truthy then ⟨.error "Missing type parameter", []⟩ else
       let title := getArg args "title"
       let body := getArg args "body"
       let update_payload : Args :=
         [("id", id), ("type", object_type)]
           ++ (if title.truthy then [("title", title)] else [])
           ++ (if body.truthy then [("body", body)] else [])
       let response := client "works.update" update_payload
       if response.status_code ≠ 200 then
         ⟨.ok [⟨"text", "Update object failed with status " ++ toString response.status_code ++ ": " ++ response.text⟩],
          [("works.update", update_payload)]⟩
       else
         ⟨.ok [⟨"text", "Object updated successfully: " ++ pyStr id⟩],
          [("works.update", update_payload)]⟩) := rfl

theorem handle_list_works (client : Client) (arguments : Option Args) :
    handle_call_tool client "list_works" arguments =
      (if !argsTruthy arguments then ⟨.error "Missing arguments", []⟩ else
       let args := arguments.getD []
       let work_type := getArg args "type"
       let applies_to_part := getArg args "applies_to_part"
       let created_by := getArg args "created_by"
       let owned_by := getArg args "owned_by"
       let stage := getArg args "stage"
       let state := getArg args "state"
       let limit := getArg args "limit"
       let payload : Args :=
         (if work_type.truthy then [("type", work_type)] else [])
           ++ (if applies_to_part.truthy then [("applies_to_part", applies_to_part)] else [])
           ++ (if created_by.truthy then [("created_by", created_by)] else [])
           ++ (if owned_by.truthy then [("owned_by", owned_by)] else [])
           ++ (if stage.truthy then [("stage", Value.obj [("name", stage)])] else [])
           ++ (if state.truthy then [("state", state)] else [])
           ++ (if limit.truthy then [("limit", limit)] else [])
       let response := client "works.list" payload
       if response.status_code ≠ 200 then
         ⟨.ok [⟨"text", "List works failed with status " ++ toString response.status_code ++ ": " ++ response.text⟩],
          [("works.list", payload)]⟩
       else
         ⟨.ok [⟨"text", "Works listed successfully: " ++ response.jsonStr⟩],
          [("works.list", payload)]⟩) := rfl

theorem handle_get_part (client : Client) (arguments : Option Args) :
    handle_call_tool client "get_part" arguments =
      (if !argsTruthy arguments then ⟨.error "Missing arguments", []⟩ else
       let args := arguments.getD []
       let id := getArg args "id"
       if !id.truthy then ⟨.error "Missing id parameter", []⟩ else
       let payload : Args := [("id", id)]
       let response := client "parts.get" payload
       if response.status_code ≠ 200 then
         ⟨.ok [⟨"text", "Get part failed with status " ++ toString response.status_code ++ ": " ++ response.text⟩],
          [("parts.get", payload)]⟩
       else
         ⟨.ok [⟨"text", "Part information for \x27" ++ pyStr id ++ "\x27:\n" ++ response.jsonStr⟩],
          [("parts.get", payload)]⟩) := rfl

theorem handle_create_part (client : Client) (arguments : Option Args) :
    handle_call_tool client "create_part" arguments =
      (if !argsTruthy arguments then ⟨.error "Missing arguments", []⟩ else
       let args := arguments.getD []
       let part_type := getArg args "type"
       if !part_type.truthy then ⟨.error "Missing type parameter", []⟩ else
       let part_name := getArg args "name"
       if !part_name.truthy then ⟨.error "Missing name parameter", []⟩ else
       let owned_by := getArg args "owned_by"
       if !owned_by.truthy then ⟨.error "Missing owned_by parameter", []⟩ else
       let parent_part := getArg args "parent_part"
       if !parent_part.truthy then ⟨.error "Missing parent_part parameter", []⟩ else
       let description := getArg args "description"
       let payload : Args :=
         [("type", part_type), ("name", part_name), ("owned_by", owned_by), ("parent_part", parent_part)]
           ++ (if description.truthy then [("description", description)] else [])
       let response := client "parts.create" payload
       if response.status_code ≠ 201 then
         ⟨.ok [⟨"text", "Create part failed with status " ++ toString response.status_code ++ ": " ++ response.text⟩],
          [("parts.create", payload)]⟩
       else
         ⟨.ok [⟨"text", "Part created successfully: " ++ response.jsonStr⟩],
          [("parts.create", payload)]⟩) := rfl

theorem handle_update_part (client : Client) (arguments : Option Args) :
    handle_call_tool client "update_part" arguments =
      (if !argsTruthy arguments then ⟨.error "Missing arguments", []⟩ else
       let args := arguments.getD []
       let id := getArg args "id"
       if !id.truthy then ⟨.error "Missing id parameter", []⟩ else
       let part_type := getArg args "type"
       if !part_type.truthy then ⟨.error "Missing type parameter", []⟩ else
       let part_name := getArg args "name"
       let description := getArg args "description"
       let owned_by := getArg args "owned_by"
       let target_close_date := getArg args "target_close_date"
       let target_start_date := getArg args "target_start_date"
       let payload : Args :=
         [("id", id), ("type", part_type)]
           ++ (if part_name.truthy then [("name", part_name)] else [])
           ++ (if description.truthy then [("description", description)] else [])
           ++ (if owned_by.truthy then [("owned_by", owned_by)] else [])
           ++ (if target_close_date.truthy then [("target_close_date", target_close_date)] else [])
           ++ (if target_start_date.truthy then [("target_start_date", target_start_date)] else [])
       let response := client "parts.update" payload
       if response.status_code ≠ 200 then
         ⟨.ok [⟨"text", "Update part failed with status " ++ toString response.status_code ++ ": " ++ response.text⟩],
          [("parts.update", payload)]⟩
       else
         ⟨.ok [⟨"text", "Part updated successfully: " ++ response.jsonStr⟩],
          [("parts.update", payload)]⟩) := rfl

/-- A truthy value under some key forces the arguments map to be nonempty. -/
theorem argsTruthy_of_getArg_truthy (args : Args) (k : String)
    (h : (getArg args k).truthy = true) : argsTruthy (some args) = true := by
  cases args with
  | nil => simp [getArg, List.lookup, Value.truthy] at h
  | cons a l => rfl

/-- A string is a contiguous substring of any string it is appended to. -/
theorem data_sub_append (a b : String) : b.data <:+: (a ++ b).data :=
  ⟨a.data, [], by simp [String.data_append]⟩

/-- C1: for every operation in the catalog, invoking the dispatcher with an
arguments map in which any one required field is absent or falsy raises a
local missing-field/missing-arguments ValueError and performs zero Remote
Client calls. -/
theorem C1_required_field_validation (name : String) (hname : name ∈ catalogNames)
    (f : String) (hf : f ∈ requiredFields name) (client : Client) (args : Args)
    (h : (getArg args f).truthy = false) :
    ∃ e, handle_call_tool client name (some args) = ⟨.error e, []⟩ := by
  have hc : catalogNames = ["search", "get_current_user", "get_object", "create_object",
      "update_object", "list_works", "get_part", "create_part", "update_part"] := rfl
  rw [hc] at hname
  simp only [List.mem_cons, List.not_mem_nil, or_false] at hname
  rcases hname with rfl|rfl|rfl|rfl|rfl|rfl|rfl|rfl|rfl
  · have hreq : requiredFields "search" = ["query", "namespace"] := rfl
    rw [hreq] at hf
    simp only [List.mem_cons, List.not_mem_nil, or_false] at hf
    rcases hf with rfl | rfl <;>
      (rw [handle_search]
       split_ifs <;> try simp_all) <;>
      first | exact ⟨_, rfl⟩ | (split_ifs <;> exact ⟨_, rfl⟩)
  · have hreq : requiredFields "get_current_user" = [] := rfl
    rw [hreq] at hf
    exact absurd hf (List.not_mem_nil f)
  · have hreq : requiredFields "get_object" = ["id"] := rfl
    rw [hreq] at hf
    simp only [List.mem_cons, List.not_mem_nil, or_false] at hf
    rcases hf with rfl <;>
      (rw [handle_get_object]
       split_ifs <;> try simp_all) <;>
      first | exact ⟨_, rfl⟩ | (split_ifs <;> exact ⟨_, rfl⟩)
  · have hreq : requiredFields "create_object" = ["type", "title", "applies_to_part"] := rfl
    rw [hreq] at hf
    simp only [List.mem_cons, List.not_mem_nil, or_false] at hf
    rcases hf with rfl | rfl | rfl <;>
      (rw [handle_create_object]
       split_ifs <;> try simp_all) <;>
      first | exact ⟨_, rfl⟩ | (split_ifs <;> exact ⟨_, rfl⟩)
  · have hreq : requiredFields "update_object" = ["id", "type"] := rfl
    rw [hreq] at hf
    simp only [List.mem_cons, List.not_mem_nil, or_false] at hf
    rcases hf with rfl | rfl <;>
      (rw [handle_update_object]
       split_ifs <;> try simp_all) <;>
      first | exact ⟨_, rfl⟩ | (split_ifs <;> exact ⟨_, rfl⟩)
  · have hreq : requiredFields "list_works" = [] := rfl
    rw [hreq] at hf
    exact absurd hf (List.not_mem_nil f)
  · have hreq : requiredFields "get_part" = ["id"] := rfl
    rw [hreq] at hf
    simp only [List.mem_cons, List.not_mem_nil, or_false] at hf
    rcases hf with rfl <;>
      (rw [handle_get_part]
       split_ifs <;> try simp_all) <;>
      first | exact ⟨_, rfl⟩ | (split_ifs <;> exact ⟨_, rfl⟩)
  · have hreq : requiredFields "create_part" = ["type", "name", "owned_by", "parent_part"] := rfl
    rw [hreq] at hf
    simp only [List.mem_cons, List.not_mem_nil, or_false] at hf
    rcases hf with rfl | rfl | rfl | rfl <;>
      (rw [handle_create_part]
       split_ifs <;> try simp_all) <;>
      first | exact ⟨_, rfl⟩ | (split_ifs <;> exact ⟨_, rfl⟩)
  · have hreq : requiredFields "update_part" = ["id", "type"] := rfl
    rw [hreq] at hf
    simp only [List.mem_cons, List.not_mem_nil, or_false] at hf
    rcases hf with rfl | rfl <;>
      (rw [handle_update_part]
       split_ifs <;> try simp_all) <;>
      first | exact ⟨_, rfl⟩ | (split_ifs <;> exact ⟨_, rfl⟩)

theorem C1_witness :
    ("search" ∈ catalogNames ∧ "query" ∈ requiredFields "search" ∧
        (getArg [("namespace", Value.str "issue")] "query").truthy = false) ∧
      ∃ e, handle_call_tool (constClient ⟨200, "", ""⟩) "search"
          (some [("namespace", Value.str "issue")]) = ⟨.error e, []⟩ :=
  ⟨⟨by decide, by decide, rfl⟩,
   C1_required_field_validation "search" (by decide) "query" (by decide)
     (constClient ⟨200, "", ""⟩) [("namespace", Value.str "issue")] rfl⟩

/-- C2: for every operation, when the Remote Client returns a status code
that does not match the success predicate, dispatch does not raise and
returns exactly one content item with text
`"<label> failed with status <code>: <raw body>"`. -/
theorem C2_remote_failure_reported (name : String) (hname : name ∈ catalogNames)
    (arguments : Option Args) (hval : passesValidation name arguments)
    (resp : RemoteResponse) (hst : resp.status_code ≠ successStatus name) :
    (handle_call_tool (constClient resp) name arguments).result =
      Except.ok [⟨"text", failureText name resp⟩] := by
  have hc : catalogNames = ["search", "get_current_user", "get_object", "create_object",
      "update_object", "list_works", "get_part", "create_part", "update_part"] := rfl
  rw [hc] at hname
  simp only [List.mem_cons, List.not_mem_nil, or_false] at hname
  rcases hname with rfl|rfl|rfl|rfl|rfl|rfl|rfl|rfl|rfl
  · rcases hval with heq | ⟨hA, hreq⟩
    · exact absurd heq (by decide)
    · have hq := hreq "query" (by decide)
      have hn := hreq "namespace" (by decide)
      have hst2 : resp.status_code ≠ 200 := by simpa [successStatus] using hst
      rw [handle_search]
      simp [constClient, hA, hq, hn, hst2, failureText, opLabel]
  · have hst2 : resp.status_code ≠ 200 := by simpa [successStatus] using hst
    rw [handle_get_current_user]
    simp [constClient, hst2, failureText, opLabel]
  · rcases hval with heq | ⟨hA, hreq⟩
    · exact absurd heq (by decide)
    · have hid := hreq "id" (by decide)
      have hst2 : resp.status_code ≠ 200 := by simpa [successStatus] using hst
      rw [handle_get_object]
      simp [constClient, hA, hid, hst2, failureText, opLabel]
  · rcases hval with heq | ⟨hA, hreq⟩
    · exact absurd heq (by decide)
    · have hty := hreq "type" (by decide)
      have hti := hreq "title" (by decide)
      have hap := hreq "applies_to_part" (by decide)
      have hst2 : resp.status_code ≠ 201 := by simpa [successStatus] using hst
      rw [handle_create_object]
      simp [constClient, hA, hty, hti, hap, hst2, failureText, opLabel]
  · rcases hval with heq | ⟨hA, hreq⟩
    · exact absurd heq (by decide)
    · have hid := hreq "id" (by decide)
      have hty := hreq "type" (by decide)
      have hst2 : resp.status_code ≠ 200 := by simpa [successStatus] using hst
      rw [handle_update_object]
      simp [constClient, hA, hid, hty, hst2, failureText, opLabel]
  · rcases hval with heq | ⟨hA, hreq⟩
    · exact absurd heq (by decide)
    · have hst2 : resp.status_code ≠ 200 := by simpa [successStatus] using hst
      rw [handle_list_works]
      simp [constClient, hA, hst2, failureText, opLabel]
  · rcases hval with heq | ⟨hA, hreq⟩
    · exact absurd heq (by decide)
    · have hid := hreq "id" (by decide)
      have hst2 : resp.status_code ≠ 200 := by simpa [successStatus] using hst
      rw [handle_get_part]
      simp [constClient, hA, hid, hst2, failureText, opLabel]
  · rcases hval with heq | ⟨hA, hreq⟩
    · exact absurd heq (by decide)
    · have hty := hreq "type" (by decide)
      have hnm := hreq "name" (by decide)
      have how := hreq "owned_by" (by decide)
      have hpp := hreq "parent_part" (by decide)
      have hst2 : resp.status_code ≠ 201 := by simpa [successStatus] using hst
      rw [handle_create_part]
      simp [constClient, hA, hty, hnm, how, hpp, hst2, failureText, opLabel]
  · rcases hval with heq | ⟨hA, hreq⟩
    · exact absurd heq (by decide)
    · have hid := hreq "id" (by decide)
      have hty := hreq "type" (by decide)
      have hst2 : resp.status_code ≠ 200 := by simpa [successStatus] using hst
      rw [handle_update_part]
      simp [constClient, hA, hid, hty, hst2, failureText, opLabel]

theorem C2_witness :
    (passesValidation "search" (some [("query", Value.str "q"), ("namespace", Value.str "issue")]) ∧
        (404 : Nat) ≠ successStatus "search") ∧
      (handle_call_tool (constClient ⟨404, "bad request", "J"⟩) "search"
          (some [("query", Value.str "q"), ("namespace", Value.str "issue")])).result =
        Except.ok [⟨"text", "Search failed with status 404: bad request"⟩] :=
  ⟨⟨Or.inr ⟨rfl, by decide⟩, by decide⟩,
   (C2_remote_failure_reported "search" (by decide)
      (some [("query", Value.str "q"), ("namespace", Value.str "issue")])
      (Or.inr ⟨rfl, by decide⟩) ⟨404, "bad request", "J"⟩ (by decide)).trans (by rfl)⟩

/-- Projecting the call trace out of a status-code branch whose two arms
share the same trace. -/
theorem calls_ite (p : Prop) [Decidable p] (r1 r2 : Except String (List TextContent))
    (c : List (String × Args)) :
    (if p then DispatchResult.mk r1 c else DispatchResult.mk r2 c).calls = c := by
  split <;> rfl

/-- C3 counterexample: `update_object` with a supplied, truthy
`applies_to_part` does not copy it into the outbound payload, contrary to
the claim that every supplied optional field of the claimed contract
(title, body, applies_to_part, owned_by) is included. -/
theorem C3_counterexample :
    (handle_call_tool (constClient ⟨200, "", "J"⟩) "update_object"
        (some [("id", Value.str "X"), ("type", Value.str "ticket"),
               ("applies_to_part", Value.str "PART-1")])).calls =
      [("works.update", [("id", Value.str "X"), ("type", Value.str "ticket")])] := rfl

/-- C3 (amended): for `update_object`, the optional fields of its contract
are `title` and `body` only; each is included in the outbound payload iff
supplied and truthy, nothing else is added, and in particular arguments
`id`/`type` alone map to exactly the payload `id`/`type`. -/
theorem C3_update_object_optional_fields (client : Client) (args : Args)
    (hid : (getArg args "id").truthy = true) (hty : (getArg args "type").truthy = true) :
    (handle_call_tool client "update_object" (some args)).calls =
      [("works.update",
        [("id", getArg args "id"), ("type", getArg args "type")]
          ++ (if (getArg args "title").truthy then [("title", getArg args "title")] else [])
          ++ (if (getArg args "body").truthy then [("body", getArg args "body")] else []))] := by
  have hA := argsTruthy_of_getArg_truthy args "id" hid
  rw [handle_update_object]
  simp [hA, hid, hty, calls_ite]

/-- C3 witness: `update_object` with exactly `id="X"`, `type="ticket"`
produces an outbound payload equal to exactly those two fields. -/
theorem C3_witness :
    ((getArg [("id", Value.str "X"), ("type", Value.str "ticket")] "id").truthy = true ∧
        (getArg [("id", Value.str "X"), ("type", Value.str "ticket")] "type").truthy = true) ∧
      (handle_call_tool (constClient ⟨200, "", "J"⟩) "update_object"
          (some [("id", Value.str "X"), ("type", Value.str "ticket")])).calls =
        [("works.update", [("id", Value.str "X"), ("type", Value.str "ticket")])] :=
  ⟨⟨rfl, rfl⟩,
   (C3_update_object_optional_fields (constClient ⟨200, "", "J"⟩)
      [("id", Value.str "X"), ("type", Value.str "ticket")] rfl rfl).trans (by rfl)⟩

/-- C4 counterexample: a successful `update_object` dispatch returns one
content item whose text embeds the id, not the decoded response body, so
the claim fails for `update_object`. -/
theorem C4_counterexample :
    (handle_call_tool (constClient ⟨200, "", "ZZZ"⟩) "update_object"
        (some [("id", Value.str "X"), ("type", Value.str "ticket")])).result =
      Except.ok [⟨"text", "Object updated successfully: X"⟩] ∧
    ¬ ("ZZZ".data <:+: "Object updated successfully: X".data) :=
  ⟨rfl, by decide⟩

/-- C4 (amended): for every operation except `update_object`, invoking
with validation passing and the Remote Client returning the success status
yields exactly one content item whose text contains the decoded response
body. -/
theorem C4_success_contains_body (name : String) (hname : name ∈ catalogNames)
    (hne : name ≠ "update_object") (arguments : Option Args)
    (hval : passesValidation name arguments) (resp : RemoteResponse)
    (hst : resp.status_code = successStatus name) :
    (handle_call_tool (constClient resp) name arguments).result =
        Except.ok [⟨"text", successText name (arguments.getD []) resp⟩] ∧
      resp.jsonStr.data <:+: (successText name (arguments.getD []) resp).data := by
  have hc : catalogNames = ["search", "get_current_user", "get_object", "create_object",
      "update_object", "list_works", "get_part", "create_part", "update_part"] := rfl
  rw [hc] at hname
  simp only [List.mem_cons, List.not_mem_nil, or_false] at hname
  rcases hname with rfl|rfl|rfl|rfl|rfl|rfl|rfl|rfl|rfl
  · rcases hval with heq | ⟨hA, hreq⟩
    · exact absurd heq (by decide)
    · have hq := hreq "query" (by decide)
      have hn := hreq "namespace" (by decide)
      have hst2 : resp.status_code = 200 := by simpa [successStatus] using hst
      have htext : successText "search" (arguments.getD []) resp =
          ("Search results for \x27" ++ pyStr (getArg (arguments.getD []) "query") ++ "\x27:\n")
            ++ resp.jsonStr := by simp [successText]
      constructor
      · rw [handle_search]
        simp [constClient, hA, hq, hn, hst2, successText]
      · rw [htext]
        exact data_sub_append _ _
  · have hst2 : resp.status_code = 200 := by simpa [successStatus] using hst
    have htext : successText "get_current_user" (arguments.getD []) resp =
        "Current user information: " ++ resp.jsonStr := by simp [successText]
    constructor
    · rw [handle_get_current_user]
      simp [constClient, hst2, successText]
    · rw [htext]
      exact data_sub_append _ _
  · rcases hval with heq | ⟨hA, hreq⟩
    · exact absurd heq (by decide)
    · have hid := hreq "id" (by decide)
      have hst2 : resp.status_code = 200 := by simpa [successStatus] using hst
      have htext : successText "get_object" (arguments.getD []) resp =
          ("Object information for \x27" ++ pyStr (getArg (arguments.getD []) "id") ++ "\x27:\n")
            ++ resp.jsonStr := by simp [successText]
      constructor
      · rw [handle_get_object]
        simp [constClient, hA, hid, hst2, successText]
      · rw [htext]
        exact data_sub_append _ _
  · rcases hval with heq | ⟨hA, hreq⟩
    · exact absurd heq (by decide)
    · have hty := hreq "type" (by decide)
      have hti := hreq "title" (by decide)
      have hap := hreq "applies_to_part" (by decide)
      have hst2 : resp.status_code = 201 := by simpa [successStatus] using hst
      have htext : successText "create_object" (arguments.getD []) resp =
          "Object created successfully: " ++ resp.jsonStr := by simp [successText]
      constructor
      · rw [handle_create_object]
        simp [constClient, hA, hty, hti, hap, hst2, successText]
      · rw [htext]
        exact data_sub_append _ _
  · exact absurd rfl hne
  · rcases hval with heq | ⟨hA, hreq⟩
    · exact absurd heq (by decide)
    · have hst2 : resp.status_code = 200 := by simpa [successStatus] using hst
      have htext : successText "list_works" (arguments.getD []) resp =
          "Works listed successfully: " ++ resp.jsonStr := by simp [successText]
      constructor
      · rw [handle_list_works]
        simp [constClient, hA, hst2, successText]
      · rw [htext]
        exact data_sub_append _ _
  · rcases hval with heq | ⟨hA, hreq⟩
    · exact absurd heq (by decide)
    · have hid := hreq "id" (by decide)
      have hst2 : resp.status_code = 200 := by simpa [successStatus] using hst
      have htext : successText "get_part" (arguments.getD []) resp =
          ("Part information for \x27" ++ pyStr (getArg (arguments.getD []) "id") ++ "\x27:\n")
            ++ resp.jsonStr := by simp [successText]
      constructor
      · rw [handle_get_part]
        simp [constClient, hA, hid, hst2, successText]
      · rw [htext]
        exact data_sub_append _ _
  · rcases hval with heq | ⟨hA, hreq⟩
    · exact absurd heq (by decide)
    · have hty := hreq "type" (by decide)
      have hnm := hreq "name" (by decide)
      have how := hreq "owned_by" (by decide)
      have hpp := hreq "parent_part" (by decide)
      have hst2 : resp.status_code = 201 := by simpa [successStatus] using hst
      have htext : successText "create_part" (arguments.getD []) resp =
          "Part created successfully: " ++ resp.jsonStr := by simp [successText]
      constructor
      · rw [handle_create_part]
        simp [constClient, hA, hty, hnm, how, hpp, hst2, successText]
      · rw [htext]
        exact data_sub_append _ _
  · rcases hval with heq | ⟨hA, hreq⟩
    · exact absurd heq (by decide)
    · have hid := hreq "id" (by decide)
      have hty := hreq "type" (by decide)
      have hst2 : resp.status_code = 200 := by simpa [successStatus] using hst
      have htext : successText "update_part" (arguments.getD []) resp =
          "Part updated successfully: " ++ resp.jsonStr := by simp [successText]
      constructor
      · rw [handle_update_part]
        simp [constClient, hA, hid, hty, hst2, successText]
      · rw [htext]
        exact data_sub_append _ _

/-- C4 witness: a successful `search` dispatch yields one content item
whose text contains the decoded body `"J"`. -/
theorem C4_witness :
    ("search" ∈ catalogNames ∧ "search" ≠ "update_object" ∧
        passesValidation "search" (some [("query", Value.str "q"), ("namespace", Value.str "issue")]) ∧
        (200 : Nat) = successStatus "search") ∧
      (handle_call_tool (constClient ⟨200, "", "J"⟩) "search"
            (some [("query", Value.str "q"), ("namespace", Value.str "issue")])).result =
          Except.ok [⟨"text", "Search results for \x27q\x27:\nJ"⟩] ∧
        "J".data <:+: "Search results for \x27q\x27:\nJ".data :=
  ⟨⟨by decide, by decide, Or.inr ⟨rfl, by decide⟩, by decide⟩,
   ⟨((C4_success_contains_body "search" (by decide) (by decide)
        (some [("query", Value.str "q"), ("namespace", Value.str "issue")])
        (Or.inr ⟨rfl, by decide⟩) ⟨200, "", "J"⟩ rfl).1).trans (by rfl),
    (C4_success_contains_body "search" (by decide) (by decide)
        (some [("query", Value.str "q"), ("namespace", Value.str "issue")])
        (Or.inr ⟨rfl, by decide⟩) ⟨200, "", "J"⟩ rfl).2⟩⟩

/-- C5: the success predicate is operation-specific — a response is
treated as a success iff its status code equals 201 for `create_object`
and `create_part` and 200 for every other operation; the matching branch
produces the success-formatted item, the other the failure-formatted one. -/
theorem C5_success_predicate (name : String) (hname : name ∈ catalogNames)
    (arguments : Option Args) (hval : passesValidation name arguments)
    (resp : RemoteResponse) :
    (resp.status_code = successStatus name →
      (handle_call_tool (constClient resp) name arguments).result =
        Except.ok [⟨"text", successText name (arguments.getD []) resp⟩]) ∧
    (resp.status_code ≠ successStatus name →
      (handle_call_tool (constClient resp) name arguments).result =
        Except.ok [⟨"text", failureText name resp⟩]) := by
  have hc : catalogNames = ["search", "get_current_user", "get_object", "create_object",
      "update_object", "list_works", "get_part", "create_part", "update_part"] := rfl
  rw [hc] at hname
  simp only [List.mem_cons, List.not_mem_nil, or_false] at hname
  rcases hname with rfl|rfl|rfl|rfl|rfl|rfl|rfl|rfl|rfl
  · rcases hval with heq | ⟨hA, hreq⟩
    · exact absurd heq (by decide)
    · have hq := hreq "query" (by decide)
      have hn := hreq "namespace" (by decide)
      refine ⟨fun hst => ?_, fun hst => ?_⟩
      · have hst2 : resp.status_code = 200 := by simpa [successStatus] using hst
        rw [handle_search]
        simp [constClient, hA, hq, hn, hst2, successText]
      · have hst2 : resp.status_code ≠ 200 := by simpa [successStatus] using hst
        rw [handle_search]
        simp [constClient, hA, hq, hn, hst2, failureText, opLabel]
  · refine ⟨fun hst => ?_, fun hst => ?_⟩
    · have hst2 : resp.status_code = 200 := by simpa [successStatus] using hst
      rw [handle_get_current_user]
      simp [constClient, hst2, successText]
    · have hst2 : resp.status_code ≠ 200 := by simpa [successStatus] using hst
      rw [handle_get_current_user]
      simp [constClient, hst2, failureText, opLabel]
  · rcases hval with heq | ⟨hA, hreq⟩
    · exact absurd heq (by decide)
    · have hid := hreq "id" (by decide)
      refine ⟨fun hst => ?_, fun hst => ?_⟩
      · have hst2 : resp.status_code = 200 := by simpa [successStatus] using hst
        rw [handle_get_object]
        simp [constClient, hA, hid, hst2, successText]
      · have hst2 : resp.status_code ≠ 200 := by simpa [successStatus] using hst
        rw [handle_get_object]
        simp [constClient, hA, hid, hst2, failureText, opLabel]
  · rcases hval with heq | ⟨hA, hreq⟩
    · exact absurd heq (by decide)
    · have hty := hreq "type" (by decide)
      have hti := hreq "title" (by decide)
      have hap := hreq "applies_to_part" (by decide)
      refine ⟨fun hst => ?_, fun hst => ?_⟩
      · have hst2 : resp.status_code = 201 := by simpa [successStatus] using hst
        rw [handle_create_object]
        simp [constClient, hA, hty, hti, hap, hst2, successText]
      · have hst2 : resp.status_code ≠ 201 := by simpa [successStatus] using hst
        rw [handle_create_object]
        simp [constClient, hA, hty, hti, hap, hst2, failureText, opLabel]
  · rcases hval with heq | ⟨hA, hreq⟩
    · exact absurd heq (by decide)
    · have hid := hreq "id" (by decide)
      have hty := hreq "type" (by decide)
      refine ⟨fun hst => ?_, fun hst => ?_⟩
      · have hst2 : resp.status_code = 200 := by simpa [successStatus] using hst
        rw [handle_update_object]
        simp [constClient, hA, hid, hty, hst2, successText]
      · have hst2 : resp.status_code ≠ 200 := by simpa [successStatus] using hst
        rw [handle_update_object]
        simp [constClient, hA, hid, hty, hst2, failureText, opLabel]
  · rcases hval with heq | ⟨hA, hreq⟩
    · exact absurd heq (by decide)
    · refine ⟨fun hst => ?_, fun hst => ?_⟩
      · have hst2 : resp.status_code = 200 := by simpa [successStatus] using hst
        rw [handle_list_works]
        simp [constClient, hA, hst2, successText]
      · have hst2 : resp.status_code ≠ 200 := by simpa [successStatus] using hst
        rw [handle_list_works]
        simp [constClient, hA, hst2, failureText, opLabel]
  · rcases hval with heq | ⟨hA, hreq⟩
    · exact absurd heq (by decide)
    · have hid := hreq "id" (by decide)
      refine ⟨fun hst => ?_, fun hst => ?_⟩
      · have hst2 : resp.status_code = 200 := by simpa [successStatus] using hst
        rw [handle_get_part]
        simp [constClient, hA, hid, hst2, successText]
      · have hst2 : resp.status_code ≠ 200 := by simpa [successStatus] using hst
        rw [handle_get_part]
        simp [constClient, hA, hid, hst2, failureText, opLabel]
  · rcases hval with heq | ⟨hA, hreq⟩
    · exact absurd heq (by decide)
    · have hty := hreq "type" (by decide)
      have hnm := hreq "name" (by decide)
      have how := hreq "owned_by" (by decide)
      have hpp := hreq "parent_part" (by decide)
      refine ⟨fun hst => ?_, fun hst => ?_⟩
      · have hst2 : resp.status_code = 201 := by simpa [successStatus] using hst
        rw [handle_create_part]
        simp [constClient, hA, hty, hnm, how, hpp, hst2, successText]
      · have hst2 : resp.status_code ≠ 201 := by simpa [successStatus] using hst
        rw [handle_create_part]
        simp [constClient, hA, hty, hnm, how, hpp, hst2, failureText, opLabel]
  · rcases hval with heq | ⟨hA, hreq⟩
    · exact absurd heq (by decide)
    · have hid := hreq "id" (by decide)
      have hty := hreq "type" (by decide)
      refine ⟨fun hst => ?_, fun hst => ?_⟩
      · have hst2 : resp.status_code = 200 := by simpa [successStatus] using hst
        rw [handle_update_part]
        simp [constClient, hA, hid, hty, hst2, successText]
      · have hst2 : resp.status_code ≠ 200 := by simpa [successStatus] using hst
        rw [handle_update_part]
        simp [constClient, hA, hid, hty, hst2, failureText, opLabel]

/-- C5 witness: `create_object` treats 201 as success. -/
theorem C5_witness :
    ("create_object" ∈ catalogNames ∧
        passesValidation "create_object" (some [("type", Value.str "issue"),
          ("title", Value.str "t"), ("applies_to_part", Value.str "PART-1")])) ∧
      (handle_call_tool (constClient ⟨201, "", "J"⟩) "create_object"
          (some [("type", Value.str "issue"), ("title", Value.str "t"),
                 ("applies_to_part", Value.str "PART-1")])).result =
        Except.ok [⟨"text", "Object created successfully: J"⟩] :=
  ⟨⟨by decide, Or.inr ⟨rfl, by decide⟩⟩,
   ((C5_success_predicate "create_object" (by decide)
        (some [("type", Value.str "issue"), ("title", Value.str "t"),
               ("applies_to_part", Value.str "PART-1")])
        (Or.inr ⟨rfl, by decide⟩) ⟨201, "", "J"⟩).1 rfl).trans (by rfl)⟩

/-- C6: the `list_works` outbound payload wraps a supplied truthy `stage`
as an object under `name`, passes every other supplied truthy optional
field through under its own key, and contains nothing else. -/
theorem C6_list_works_payload (client : Client) (args : Args)
    (hA : argsTruthy (some args) = true) :
    (handle_call_tool client "list_works" (some args)).calls =
      [("works.list",
        (if (getArg args "type").truthy then [("type", getArg args "type")] else [])
          ++ (if (getArg args "applies_to_part").truthy then
                [("applies_to_part", getArg args "applies_to_part")] else [])
          ++ (if (getArg args "created_by").truthy then
                [("created_by", getArg args "created_by")] else [])
          ++ (if (getArg args "owned_by").truthy then
                [("owned_by", getArg args "owned_by")] else [])
          ++ (if (getArg args "stage").truthy then
                [("stage", Value.obj [("name", getArg args "stage")])] else [])
          ++ (if (getArg args "state").truthy then
                [("state", getArg args "state")] else [])
          ++ (if (getArg args "limit").truthy then
                [("limit", getArg args "limit")] else []))] := by
  rw [handle_list_works]
  simp [hA, calls_ite]

/-- C6 witness: `list_works` with `stage=["triage"]` produces a payload
equal to exactly the wrapped stage object. -/
theorem C6_witness :
    argsTruthy (some [("stage", Value.arr [Value.str "triage"])]) = true ∧
      (handle_call_tool (constClient ⟨200, "", "J"⟩) "list_works"
          (some [("stage", Value.arr [Value.str "triage"])])).calls =
        [("works.list", [("stage", Value.obj [("name", Value.arr [Value.str "triage"])])])] :=
  ⟨rfl,
   (C6_list_works_payload (constClient ⟨200, "", "J"⟩)
      [("stage", Value.arr [Value.str "triage"])] rfl).trans (by rfl)⟩

/-- C7: the `create_object` outbound payload always contains `body` and
`owned_by`, defaulting them to `""` and `[]` when absent, alongside the
supplied `type`, `title`, and `applies_to_part`. -/
theorem C7_create_object_payload_defaults (client : Client) (args : Args)
    (hty : (getArg args "type").truthy = true) (hti : (getArg args "title").truthy = true)
    (hap : (getArg args "applies_to_part").truthy = true) :
    (handle_call_tool client "create_object" (some args)).calls =
      [("works.create",
        [("type", getArg args "type"), ("title", getArg args "title"),
         ("body", getArgD args "body" (Value.str "")),
         ("applies_to_part", getArg args "applies_to_part"),
         ("owned_by", getArgD args "owned_by" (Value.arr []))])] := by
  have hA := argsTruthy_of_getArg_truthy args "type" hty
  rw [handle_create_object]
  simp [hA, hty, hti, hap, calls_ite]

/-- C7 witness: omitting `body` and `owned_by` yields a payload containing
`body=""` and `owned_by=[]`. -/
theorem C7_witness :
    ((getArg [("type", Value.str "issue"), ("title", Value.str "t"),
        ("applies_to_part", Value.str "PART-1")] "type").truthy = true) ∧
      (handle_call_tool (constClient ⟨201, "", "J"⟩) "create_object"
          (some [("type", Value.str "issue"), ("title", Value.str "t"),
                 ("applies_to_part", Value.str "PART-1")])).calls =
        [("works.create",
          [("type", Value.str "issue"), ("title", Value.str "t"), ("body", Value.str ""),
           ("applies_to_part", Value.str "PART-1"), ("owned_by", Value.arr [])])] :=
  ⟨rfl,
   (C7_create_object_payload_defaults (constClient ⟨201, "", "J"⟩)
      [("type", Value.str "issue"), ("title", Value.str "t"),
       ("applies_to_part", Value.str "PART-1")] rfl rfl rfl).trans (by rfl)⟩

/-- C8: every operation of the catalog performs its single outbound call
against its fixed remote endpoint. -/
theorem C8_endpoint_mapping (name : String) (hname : name ∈ catalogNames)
    (client : Client) (arguments : Option Args) (hval : passesValidation name arguments) :
    (handle_call_tool client name arguments).calls.map Prod.fst = [endpointOf name] := by
  have hc : catalogNames = ["search", "get_current_user", "get_object", "create_object",
      "update_object", "list_works", "get_part", "create_part", "update_part"] := rfl
  rw [hc] at hname
  simp only [List.mem_cons, List.not_mem_nil, or_false] at hname
  rcases hname with rfl|rfl|rfl|rfl|rfl|rfl|rfl|rfl|rfl
  · rcases hval with heq | ⟨hA, hreq⟩
    · exact absurd heq (by decide)
    · have hq := hreq "query" (by decide)
      have hn := hreq "namespace" (by decide)
      rw [handle_search]
      simp [hA, hq, hn, calls_ite, endpointOf]
  · rw [handle_get_current_user]
    simp [calls_ite, endpointOf]
  · rcases hval with heq | ⟨hA, hreq⟩
    · exact absurd heq (by decide)
    · have hid := hreq "id" (by decide)
      rw [handle_get_object]
      simp [hA, hid, calls_ite, endpointOf]
  · rcases hval with heq | ⟨hA, hreq⟩
    · exact absurd heq (by decide)
    · have hty := hreq "type" (by decide)
      have hti := hreq "title" (by decide)
      have hap := hreq "applies_to_part" (by decide)
      rw [handle_create_object]
      simp [hA, hty, hti, hap, calls_ite, endpointOf]
  · rcases hval with heq | ⟨hA, hreq⟩
    · exact absurd heq (by decide)
    · have hid := hreq "id" (by decide)
      have hty := hreq "type" (by decide)
      rw [handle_update_object]
      simp [hA, hid, hty, calls_ite, endpointOf]
  · rcases hval with heq | ⟨hA, hreq⟩
    · exact absurd heq (by decide)
    · rw [handle_list_works]
      simp [hA, calls_ite, endpointOf]
  · rcases hval with heq | ⟨hA, hreq⟩
    · exact absurd heq (by decide)
    · have hid := hreq "id" (by decide)
      rw [handle_get_part]
      simp [hA, hid, calls_ite, endpointOf]
  · rcases hval with heq | ⟨hA, hreq⟩
    · exact absurd heq (by decide)
    · have hty := hreq "type" (by decide)
      have hnm := hreq "name" (by decide)
      have how := hreq "owned_by" (by decide)
      have hpp := hreq "parent_part" (by decide)
      rw [handle_create_part]
      simp [hA, hty, hnm, how, hpp, calls_ite, endpointOf]
  · rcases hval with heq | ⟨hA, hreq⟩
    · exact absurd heq (by decide)
    · have hid := hreq "id" (by decide)
      have hty := hreq "type" (by decide)
      rw [handle_update_part]
      simp [hA, hid, hty, calls_ite, endpointOf]

/-- C8 witness: `get_part` calls `parts.get` exactly once. -/
theorem C8_witness :
    ("get_part" ∈ catalogNames ∧
        passesValidation "get_part" (some [("id", Value.str "PART-1")])) ∧
      (handle_call_tool (constClient ⟨200, "", "J"⟩) "get_part"
          (some [("id", Value.str "PART-1")])).calls.map Prod.fst = ["parts.get"] :=
  ⟨⟨by decide, Or.inr ⟨rfl, by decide⟩⟩,
   (C8_endpoint_mapping "get_part" (by decide) (constClient ⟨200, "", "J"⟩)
      (some [("id", Value.str "PART-1")]) (Or.inr ⟨rfl, by decide⟩)).trans (by rfl)⟩

/-- C9: dispatching any operation name outside the catalog raises
`ValueError("Unknown tool: <name>")` and performs zero Remote Client
calls. -/
theorem C9_unknown_tool (client : Client) (name : String) (arguments : Option Args)
    (h : name ∉ catalogNames) :
    handle_call_tool client name arguments = ⟨.error ("Unknown tool: " ++ name), []⟩ := by
  have hc : catalogNames = ["search", "get_current_user", "get_object", "create_object",
      "update_object", "list_works", "get_part", "create_part", "update_part"] := rfl
  rw [hc] at h
  simp only [List.mem_cons, List.not_mem_nil, or_false, not_or] at h
  obtain ⟨h1, h2, h3, h4, h5, h6, h7, h8, h9⟩ := h
  unfold handle_call_tool
  simp [h1, h2, h3, h4, h5, h6, h7, h8, h9]

/-- C9 witness: `dispatch("not_a_real_tool", {})` raises UnknownOperation. -/
theorem C9_witness :
    "not_a_real_tool" ∉ catalogNames ∧
      handle_call_tool (constClient ⟨200, "", "J"⟩) "not_a_real_tool" (some []) =
        ⟨.error ("Unknown tool: " ++ "not_a_real_tool"), []⟩ :=
  ⟨by decide,
   C9_unknown_tool (constClient ⟨200, "", "J"⟩) "not_a_real_tool" (some []) (by decide)⟩

/-- C10: every catalog operation except `get_current_user` treats an empty
arguments map exactly like an absent one — it raises
`ValueError("Missing arguments")` before any remote call — while
`get_current_user` never raises and always performs its single remote
call. -/
theorem C10_empty_args (name : String) (hname : name ∈ catalogNames) (client : Client) :
    (name ≠ "get_current_user" →
      handle_call_tool client name (some []) = ⟨.error "Missing arguments", []⟩ ∧
      handle_call_tool client name Option.none = ⟨.error "Missing arguments", []⟩) ∧
    (name = "get_current_user" → ∀ arguments : Option Args, ∃ items,
      handle_call_tool client name arguments = ⟨.ok items, [("dev-users.self", [])]⟩) := by
  have hc : catalogNames = ["search", "get_current_user", "get_object", "create_object",
      "update_object", "list_works", "get_part", "create_part", "update_part"] := rfl
  rw [hc] at hname
  simp only [List.mem_cons, List.not_mem_nil, or_false] at hname
  rcases hname with rfl|rfl|rfl|rfl|rfl|rfl|rfl|rfl|rfl
  case inr.inl =>
    refine ⟨fun hne => absurd rfl hne, fun _ arguments => ?_⟩
    unfold handle_call_tool
    simp only [reduceIte, String.reduceEq]
    split
    · exact ⟨_, rfl⟩
    · exact ⟨_, rfl⟩
  all_goals exact ⟨fun _ => ⟨rfl, rfl⟩, fun heq => absurd heq (by decide)⟩

/-- C10 witness: `list_works` with an empty arguments map raises
`Missing arguments` even though it has no required fields. -/
theorem C10_witness :
    "list_works" ∈ catalogNames ∧
      handle_call_tool (constClient ⟨200, "", "J"⟩) "list_works" (some []) =
        ⟨.error "Missing arguments", []⟩ :=
  ⟨by decide,
   ((C10_empty_args "list_works" (by decide) (constClient ⟨200, "", "J"⟩)).1 (by decide)).1⟩
